import Mathlib

/-!
# A shallow embedding of the simuphy2 observed-memory reactive engine

This development embeds the C sources of the simuphy2 toolkit
(`src/phymuti_error.c`, `src/memory_manager.c`, `src/monitor.c`,
`src/device_manager.c`, `src/rule_engine.c`) as executable Lean
definitions and proves (or refutes) the specification claims about them.

Modelling conventions:
* C machine integers become `Nat`; where the C arithmetic can wrap
  (`uint64_t` additions in range and overlap checks, `uint32_t` id
  counters) the embedding applies the explicit reduction `% 2 ^ 64`
  (resp. `% 2 ^ 32`) at the same place the C code wraps.
* Nullable pointer parameters become `Option` parameters (`none` = NULL).
  Structures that C passes by pointer and that the claims treat as valid
  objects (a `memory_region_t *` that was successfully created) are
  passed by value; the NULL-pointer early-outs on such parameters are
  therefore not represented and are noted at each definition.
* `malloc`/`strdup`/`realloc` are modelled as always succeeding;
  out-of-memory paths are outside the embedding.
* User callbacks (watchpoint actions, rule conditions, device class
  hooks) run outside the registries.  The embedding returns the exact
  sequence of `action_execute(id, ctx)` invocations a call performs
  after its internal walk, instead of running them.
* The linked lists (`memory_region_list`, `watchpoint_list`,
  `rule_list`, `device_type_list`, `device_list`) become Lean lists with
  the head playing the role of the list head; the C code prepends new
  nodes, and so does the embedding.
-/

/-! ## Error codes (`include/phymuti_error.h`) -/

def PHYMUTI_SUCCESS : Int := 0
def PHYMUTI_ERROR_INVALID_PARAM : Int := -1
def PHYMUTI_ERROR_OUT_OF_MEMORY : Int := -2
def PHYMUTI_ERROR_NOT_FOUND : Int := -3
def PHYMUTI_ERROR_ALREADY_EXISTS : Int := -4
def PHYMUTI_ERROR_NOT_SUPPORTED : Int := -5
def PHYMUTI_ERROR_PERMISSION : Int := -6
def PHYMUTI_ERROR_TIMEOUT : Int := -7
def PHYMUTI_ERROR_BUSY : Int := -8
def PHYMUTI_ERROR_DEVICE_TYPE_NOT_FOUND : Int := -100
def PHYMUTI_ERROR_DEVICE_NOT_FOUND : Int := -101
def PHYMUTI_ERROR_MEMORY_REGION_NOT_FOUND : Int := -200
def PHYMUTI_ERROR_MEMORY_OUT_OF_RANGE : Int := -201
def PHYMUTI_ERROR_MEMORY_PERMISSION : Int := -202
def PHYMUTI_ERROR_MEMORY_ALIGNMENT : Int := -203
def PHYMUTI_ERROR_WATCHPOINT_NOT_FOUND : Int := -300
def PHYMUTI_ERROR_ACTION_NOT_FOUND : Int := -400
def PHYMUTI_ERROR_RULE_NOT_FOUND : Int := -500

/-- Note: `rule_engine.c` returns the identifiers `PHYMUTI_ERROR_RULE_DISABLED`
and `PHYMUTI_ERROR_RULE_NO_CONDITION` although no header in the
repository defines them.  Modelled from the spec: following the error
ABI convention of spec §6 (`0 = success`, negative elsewhere, rule range
`-500…`), the embedding assigns them fresh negative codes in the rule
range.  Every theorem below depends only on these codes being distinct
from `PHYMUTI_SUCCESS`. -/
def PHYMUTI_ERROR_RULE_DISABLED : Int := -503

/-- See `PHYMUTI_ERROR_RULE_DISABLED`: the second undefined rule-engine
error identifier used by `rule_evaluate` in `rule_engine.c`. -/
def PHYMUTI_ERROR_RULE_NO_CONDITION : Int := -504

/-! ## Memory manager data model (`src/memory_manager.c`) -/

/-- Memory region flags from `include/memory_manager.h`. -/
def MEMORY_FLAG_READ : Nat := 1 <<< 0

def MEMORY_FLAG_WRITE : Nat := 1 <<< 1

def MEMORY_FLAG_EXEC : Nat := 1 <<< 2

def MEMORY_FLAG_RW : Nat := MEMORY_FLAG_READ ||| MEMORY_FLAG_WRITE

/-- Embedding of `memory_access_type_t` from `include/memory_manager.h`. -/
inductive MemoryAccessType where
  | read
  | write
  | exec
deriving DecidableEq, Repr

/-- Embedding of `struct memory_region_struct` from `memory_manager.c`.  The owning
device pointer is modelled by a numeric handle (`0` = NULL); the byte
backing `uint8_t *data` is a list of byte values. -/
structure MemoryRegion where
  name : String
  device : Nat
  base_addr : Nat
  size : Nat
  flags : Nat
  data : List Nat
deriving DecidableEq, Repr

/-- The memory-region registry (`memory_region_list`); the head of the
list is the most recently created region. -/
structure MemState where
  regions : List MemoryRegion
deriving DecidableEq, Repr

def memory_manager_init : MemState := ⟨[]⟩

/-- Embedding of `memory_region_create` from `memory_manager.c` lines 89–131.  `name`
is an `Option` because the C code checks `!name`; the returned region is
the freshly allocated node, prepended to the registry list.  No check of
any kind is made against the existing registry contents. -/
def memory_region_create (s : MemState) (device : Nat) (name : Option String)
    (base_addr : Nat) (size : Nat) (flags : Nat) :
    Option MemoryRegion × MemState :=
  match name with
  | none => (none, s)
  | some nm =>
    if size = 0 then (none, s)
    else
      let region : MemoryRegion :=
        ⟨nm, device, base_addr, size, flags, List.replicate size 0⟩
      (some region, ⟨region :: s.regions⟩)

/-- Embedding of `check_memory_access` from `memory_manager.c` lines 278–315.  The C
range test `addr < base || addr + size > base + region->size` is on
`uint64_t`, so both sums are reduced `% 2 ^ 64`.  The NULL-region check
is not representable (the region is passed by value). -/
def check_memory_access (region : MemoryRegion) (addr : Nat) (size : Nat)
    (access_type : MemoryAccessType) : Int :=
  if addr < region.base_addr ∨
      (addr + size) % 2 ^ 64 > (region.base_addr + region.size) % 2 ^ 64 then
    PHYMUTI_ERROR_MEMORY_OUT_OF_RANGE
  else
    match access_type with
    | .read =>
      if region.flags &&& MEMORY_FLAG_READ = 0 then PHYMUTI_ERROR_MEMORY_PERMISSION
      else PHYMUTI_SUCCESS
    | .write =>
      if region.flags &&& MEMORY_FLAG_WRITE = 0 then PHYMUTI_ERROR_MEMORY_PERMISSION
      else PHYMUTI_SUCCESS
    | .exec =>
      if region.flags &&& MEMORY_FLAG_EXEC = 0 then PHYMUTI_ERROR_MEMORY_PERMISSION
      else PHYMUTI_SUCCESS

/-- One `monitor_notify_memory_access` broadcast issued by the memory
layer: the `(addr, size, value, access_type)` quadruple passed along
with the region itself. -/
structure MemEvent where
  addr : Nat
  size : Nat
  value : Nat
  access_type : MemoryAccessType
deriving DecidableEq, Repr

/-- Little-endian byte image of the low `n` bytes of `v`, exactly the
store performed by the C casts `*(uintN_t *)(data + offset) = value`
(the target convention is little-endian, as spec §4.2 fixes). -/
def bytesLE : Nat → Nat → List Nat
  | 0, _ => []
  | n + 1, v => v % 256 :: bytesLE n (v / 256)

/-- Little-endian recomposition of a byte list, the load performed by
the C casts `*value = *(uintN_t *)(data + offset)`. -/
def fromLE : List Nat → Nat
  | [] => 0
  | b :: bs => b + 256 * fromLE bs

/-- In-place store of the `n`-byte little-endian image of `v` at
`offset` into the backing. -/
def storeLE (data : List Nat) (offset n v : Nat) : List Nat :=
  data.take offset ++ bytesLE n v ++ data.drop (offset + n)

/-- Little-endian load of `n` bytes at `offset` from the backing. -/
def loadLE (data : List Nat) (offset n : Nat) : Nat :=
  fromLE ((data.drop offset).take n)

/-- Embedding of `memory_read_halfword` from `memory_manager.c` lines 387–413.
Returns the error code, the value stored through the out-pointer
(`none` when the call failed before the load) and the broadcasts made.
The `!region || !value` NULL checks are not representable. -/
def memory_read_halfword (region : MemoryRegion) (addr : Nat) :
    Int × Option Nat × List MemEvent :=
  if addr &&& 0x1 ≠ 0 then (PHYMUTI_ERROR_MEMORY_ALIGNMENT, none, [])
  else
    let ret := check_memory_access region addr 2 .read
    if ret ≠ PHYMUTI_SUCCESS then (ret, none, [])
    else
      let offset := addr - region.base_addr
      let v := loadLE region.data offset 2
      (PHYMUTI_SUCCESS, some v, [⟨addr, 2, v, .read⟩])

/-- Embedding of `memory_write_halfword` from `memory_manager.c` lines 423–449.  The
`uint16_t value` parameter is reduced `% 2 ^ 16` at entry. -/
def memory_write_halfword (region : MemoryRegion) (addr : Nat) (value : Nat) :
    Int × MemoryRegion × List MemEvent :=
  let value := value % 2 ^ 16
  if addr &&& 0x1 ≠ 0 then (PHYMUTI_ERROR_MEMORY_ALIGNMENT, region, [])
  else
    let ret := check_memory_access region addr 2 .write
    if ret ≠ PHYMUTI_SUCCESS then (ret, region, [])
    else
      let offset := addr - region.base_addr
      (PHYMUTI_SUCCESS, { region with data := storeLE region.data offset 2 value },
        [⟨addr, 2, value, .write⟩])

/-- Embedding of `memory_read_word` from `memory_manager.c` lines 459–485. -/
def memory_read_word (region : MemoryRegion) (addr : Nat) :
    Int × Option Nat × List MemEvent :=
  if addr &&& 0x3 ≠ 0 then (PHYMUTI_ERROR_MEMORY_ALIGNMENT, none, [])
  else
    let ret := check_memory_access region addr 4 .read
    if ret ≠ PHYMUTI_SUCCESS then (ret, none, [])
    else
      let offset := addr - region.base_addr
      let v := loadLE region.data offset 4
      (PHYMUTI_SUCCESS, some v, [⟨addr, 4, v, .read⟩])

/-- Embedding of `memory_write_word` from `memory_manager.c` lines 495–521.  The
`uint32_t value` parameter is reduced `% 2 ^ 32` at entry. -/
def memory_write_word (region : MemoryRegion) (addr : Nat) (value : Nat) :
    Int × MemoryRegion × List MemEvent :=
  let value := value % 2 ^ 32
  if addr &&& 0x3 ≠ 0 then (PHYMUTI_ERROR_MEMORY_ALIGNMENT, region, [])
  else
    let ret := check_memory_access region addr 4 .write
    if ret ≠ PHYMUTI_SUCCESS then (ret, region, [])
    else
      let offset := addr - region.base_addr
      (PHYMUTI_SUCCESS, { region with data := storeLE region.data offset 4 value },
        [⟨addr, 4, value, .write⟩])

/-- Embedding of `memory_read_doubleword` from `memory_manager.c` lines 531–557. -/
def memory_read_doubleword (region : MemoryRegion) (addr : Nat) :
    Int × Option Nat × List MemEvent :=
  if addr &&& 0x7 ≠ 0 then (PHYMUTI_ERROR_MEMORY_ALIGNMENT, none, [])
  else
    let ret := check_memory_access region addr 8 .read
    if ret ≠ PHYMUTI_SUCCESS then (ret, none, [])
    else
      let offset := addr - region.base_addr
      let v := loadLE region.data offset 8
      (PHYMUTI_SUCCESS, some v, [⟨addr, 8, v, .read⟩])

/-- Embedding of `memory_write_doubleword` from `memory_manager.c` lines 567–593. -/
def memory_write_doubleword (region : MemoryRegion) (addr : Nat) (value : Nat) :
    Int × MemoryRegion × List MemEvent :=
  let value := value % 2 ^ 64
  if addr &&& 0x7 ≠ 0 then (PHYMUTI_ERROR_MEMORY_ALIGNMENT, region, [])
  else
    let ret := check_memory_access region addr 8 .write
    if ret ≠ PHYMUTI_SUCCESS then (ret, region, [])
    else
      let offset := addr - region.base_addr
      (PHYMUTI_SUCCESS, { region with data := storeLE region.data offset 8 value },
        [⟨addr, 8, value, .write⟩])

/-- Embedding of `memory_read_buffer` from `memory_manager.c` lines 604–625.  The
out-buffer pointer is modelled by an `Option Unit` (`none` = NULL); on
success the bytes copied out are returned. -/
def memory_read_buffer (region : MemoryRegion) (addr : Nat)
    (buffer : Option Unit) (size : Nat) :
    Int × Option (List Nat) × List MemEvent :=
  if buffer = none ∨ size = 0 then (PHYMUTI_ERROR_INVALID_PARAM, none, [])
  else
    let ret := check_memory_access region addr size .read
    if ret ≠ PHYMUTI_SUCCESS then (ret, none, [])
    else
      let offset := addr - region.base_addr
      (PHYMUTI_SUCCESS, some ((region.data.drop offset).take size),
        [⟨addr, size, 0, .read⟩])

/-- Embedding of `memory_write_buffer` from `memory_manager.c` lines 636–657.  The
source buffer is an `Option` byte list (`none` = NULL); `memcpy` copies
exactly `size` bytes from it (the C caller guarantees the buffer holds
at least `size` bytes). -/
def memory_write_buffer (region : MemoryRegion) (addr : Nat)
    (buffer : Option (List Nat)) (size : Nat) :
    Int × MemoryRegion × List MemEvent :=
  match buffer with
  | none => (PHYMUTI_ERROR_INVALID_PARAM, region, [])
  | some buf =>
    if size = 0 then (PHYMUTI_ERROR_INVALID_PARAM, region, [])
    else
      let ret := check_memory_access region addr size .write
      if ret ≠ PHYMUTI_SUCCESS then (ret, region, [])
      else
        let offset := addr - region.base_addr
        (PHYMUTI_SUCCESS,
          { region with data :=
              region.data.take offset ++ buf.take size ++
                region.data.drop (offset + size) },
          [⟨addr, size, 0, .write⟩])

/-! ## Monitor (watchpoint engine) data model (`src/monitor.c`) -/

/-- Embedding of `watchpoint_type_t` from `include/monitor.h`. -/
inductive WatchpointType where
  | wpRead
  | wpWrite
  | wpAccess
  | wpValueWrite
deriving DecidableEq, Repr

/-- Embedding of `monitor_context_t` from `include/monitor.h`.  The `region` pointer
is the numeric region handle used throughout the monitor embedding. -/
structure MonitorContext where
  region : Nat
  address : Nat
  size : Nat
  value : Nat
  access_type : MemoryAccessType
deriving DecidableEq, Repr

/-- Embedding of `struct watchpoint_struct` from `monitor.c`.  The dynamic
`action_ids` array (with its count and capacity) is a list; the region
pointer is a numeric handle (`0` = NULL). -/
structure Watchpoint where
  id : Nat
  region : Nat
  addr : Nat
  size : Nat
  type : WatchpointType
  enabled : Bool
  wpvalue : Nat
  action_ids : List Nat
deriving DecidableEq, Repr

/-- The monitor globals `watchpoint_list` (head = newest, the C code
prepends) and `next_watchpoint_id`. -/
structure MonitorState where
  watchpoints : List Watchpoint
  next_watchpoint_id : Nat
deriving DecidableEq, Repr

/-- Embedding of `monitor_init` from `monitor.c`: empty list, ids restart at 1. -/
def monitor_init : MonitorState := ⟨[], 1⟩

/-- Embedding of `monitor_add_watchpoint` from `monitor.c` lines 184–233.  Returns
`0` (`MONITOR_INVALID_ID`) on parameter failure; otherwise assigns
`next_watchpoint_id++` (a `uint32_t`, hence the `% 2 ^ 32`), creates the
watchpoint with `enabled = true` and an empty action list, and prepends
it. -/
def monitor_add_watchpoint (s : MonitorState) (region : Nat) (addr : Nat)
    (size : Nat) (type : WatchpointType) (wpvalue : Nat) :
    Nat × MonitorState :=
  if region = 0 ∨ size = 0 ∨ size > 8 then (0, s)
  else
    let id := s.next_watchpoint_id
    (id, ⟨⟨id, region, addr, size, type, true, wpvalue, []⟩ :: s.watchpoints,
      (s.next_watchpoint_id + 1) % 2 ^ 32⟩)

/-- Update the first watchpoint of the list with the given id, as the
list walks in `monitor.c` do after `find_watchpoint` succeeds. -/
def updateWatchpoint (wps : List Watchpoint) (id : Nat)
    (f : Watchpoint → Watchpoint) : List Watchpoint :=
  match wps with
  | [] => []
  | wp :: rest =>
    if wp.id = id then f wp :: rest else wp :: updateWatchpoint rest id f

/-- Embedding of `monitor_enable_watchpoint` from `monitor.c` lines 300–317. -/
def monitor_enable_watchpoint (s : MonitorState) (id : Nat) :
    Int × MonitorState :=
  if (s.watchpoints.find? (fun wp => wp.id == id)).isNone then
    (PHYMUTI_ERROR_WATCHPOINT_NOT_FOUND, s)
  else
    (PHYMUTI_SUCCESS,
      ⟨updateWatchpoint s.watchpoints id (fun wp => { wp with enabled := true }),
        s.next_watchpoint_id⟩)

/-- Embedding of `monitor_disable_watchpoint` from `monitor.c` lines 325–342. -/
def monitor_disable_watchpoint (s : MonitorState) (id : Nat) :
    Int × MonitorState :=
  if (s.watchpoints.find? (fun wp => wp.id == id)).isNone then
    (PHYMUTI_ERROR_WATCHPOINT_NOT_FOUND, s)
  else
    (PHYMUTI_SUCCESS,
      ⟨updateWatchpoint s.watchpoints id (fun wp => { wp with enabled := false }),
        s.next_watchpoint_id⟩)

/-- Embedding of `monitor_bind_action` from `monitor.c` lines 351–397: not-found
fails, an already-bound id is a no-op success, otherwise the id is
appended (the geometric capacity growth has no observable effect in the
list model, and `realloc` is modelled as succeeding). -/
def monitor_bind_action (s : MonitorState) (id : Nat) (action_id : Nat) :
    Int × MonitorState :=
  match s.watchpoints.find? (fun wp => wp.id == id) with
  | none => (PHYMUTI_ERROR_WATCHPOINT_NOT_FOUND, s)
  | some wp =>
    if action_id ∈ wp.action_ids then (PHYMUTI_SUCCESS, s)
    else
      (PHYMUTI_SUCCESS,
        ⟨updateWatchpoint s.watchpoints id
            (fun w => { w with action_ids := w.action_ids ++ [action_id] }),
          s.next_watchpoint_id⟩)

/-- The fixed size of the per-call match buffer in
`monitor_notify_memory_access` (`#define MAX_MATCHES 32`). -/
def MAX_MATCHES : Nat := 32

/-- The `switch (wp->type)` of `monitor_notify_memory_access`
(`monitor.c` lines 539–558) computing the access-kind `match` flag. -/
def kind_match_code (wp : Watchpoint) (value : Nat)
    (access_type : MemoryAccessType) : Bool :=
  match wp.type with
  | .wpRead => access_type == .read
  | .wpWrite => access_type == .write
  | .wpAccess => access_type == .read || access_type == .write
  | .wpValueWrite => access_type == .write && value == wp.wpvalue

/-- The walk of `monitor_notify_memory_access` (`monitor.c` lines
519–581) over the watchpoint list, carrying the `matched_actions`
buffer: disabled watchpoints, other regions, non-overlapping windows
and kind mismatches are skipped; for a match, the bound action ids are
appended, paired with the access context built for this call, while the
buffer holds fewer than `MAX_MATCHES` entries.  The overlap test is the
C `uint64_t` comparison
`addr + size <= wp->addr || addr >= wp->addr + wp->size`. -/
def notifyWalk (region addr size value : Nat) (access_type : MemoryAccessType) :
    List Watchpoint → List (Nat × MonitorContext) → List (Nat × MonitorContext)
  | [], acc => acc
  | wp :: rest, acc =>
    if wp.enabled = false then notifyWalk region addr size value access_type rest acc
    else if wp.region ≠ region then notifyWalk region addr size value access_type rest acc
    else if (addr + size) % 2 ^ 64 ≤ wp.addr ∨ addr ≥ (wp.addr + wp.size) % 2 ^ 64 then
      notifyWalk region addr size value access_type rest acc
    else if kind_match_code wp value access_type = false then
      notifyWalk region addr size value access_type rest acc
    else
      notifyWalk region addr size value access_type rest
        (acc ++ (wp.action_ids.take (MAX_MATCHES - acc.length)).map
          (fun a => (a, (⟨region, addr, size, value, access_type⟩ : MonitorContext))))

/-- Embedding of `monitor_notify_memory_access` from `monitor.c` lines 494–595.
Returns the error code together with the sequence of
`action_execute(action_id, &context)` invocations the call performs —
all of them issued only after the walk over the whole watchpoint list
has completed and the lock has been released, exactly as in the C
snapshot-then-invoke structure. -/
def monitor_notify_memory_access (s : MonitorState) (region addr size value : Nat)
    (access_type : MemoryAccessType) : Int × List (Nat × MonitorContext) :=
  if region = 0 then (PHYMUTI_ERROR_INVALID_PARAM, [])
  else
    (PHYMUTI_SUCCESS, notifyWalk region addr size value access_type s.watchpoints [])

/-! ## Rule engine data model (`src/rule_engine.c`) -/

/-- Embedding of `struct rule_struct` from `rule_engine.c`.  The condition function
pointer plus its user-data closure argument become one optional Lean
predicate on the context (`none` = NULL condition). -/
structure Rule where
  id : Nat
  name : String
  condition : Option (MonitorContext → Bool)
  action_ids : List Nat
  enabled : Bool

/-- The rule-engine globals `rule_list` (head = newest) and
`next_rule_id`. -/
structure RuleState where
  rules : List Rule
  next_rule_id : Nat

/-- Embedding of `rule_engine_init` from `rule_engine.c`: empty list, ids restart
at 1. -/
def rule_engine_init : RuleState := ⟨[], 1⟩

/-- Embedding of `rule_create` from `rule_engine.c` lines 194–249.  `name` is an
`Option` because the C code checks `!name`; `strlen(name) == 0` is the
empty string.  The new rule has no condition, no actions and — as the
source literally writes at line 223 — `enabled = true`.  The id counter
is a `uint32_t`.  No uniqueness check of any kind is made against the
existing rule list. -/
def rule_create (s : RuleState) (name : Option String) : Nat × RuleState :=
  match name with
  | none => (0, s)
  | some nm =>
    if nm = "" then (0, s)
    else
      let id := s.next_rule_id
      (id, ⟨⟨id, nm, none, [], true⟩ :: s.rules, (s.next_rule_id + 1) % 2 ^ 32⟩)

/-- Update the first rule of the list with the given id, as the C walks
do after `find_rule_by_id` succeeds. -/
def updateRule (rules : List Rule) (id : Nat) (f : Rule → Rule) : List Rule :=
  match rules with
  | [] => []
  | r :: rest => if r.id = id then f r :: rest else r :: updateRule rest id f

/-- Embedding of `rule_set_condition` from `rule_engine.c` lines 322–353 (`condition`
must be non-NULL). -/
def rule_set_condition (s : RuleState) (id : Nat)
    (condition : Option (MonitorContext → Bool)) : Int × RuleState :=
  if id = 0 ∨ condition.isNone then (PHYMUTI_ERROR_INVALID_PARAM, s)
  else if (s.rules.find? (fun r => r.id == id)).isNone then
    (PHYMUTI_ERROR_RULE_NOT_FOUND, s)
  else
    (PHYMUTI_SUCCESS,
      ⟨updateRule s.rules id (fun r => { r with condition := condition }),
        s.next_rule_id⟩)

/-- Embedding of `rule_disable` from `rule_engine.c` lines 524–554. -/
def rule_disable (s : RuleState) (id : Nat) : Int × RuleState :=
  if id = 0 then (PHYMUTI_ERROR_INVALID_PARAM, s)
  else if (s.rules.find? (fun r => r.id == id)).isNone then
    (PHYMUTI_ERROR_RULE_NOT_FOUND, s)
  else
    (PHYMUTI_SUCCESS,
      ⟨updateRule s.rules id (fun r => { r with enabled := false }),
        s.next_rule_id⟩)

/-- Embedding of `rule_evaluate` from `rule_engine.c` lines 563–634.  The context
pointer is an `Option` (`none` = NULL).  Returns the error code and the
sequence of `action_execute(action_id, context)` invocations performed:
a missing rule, a disabled rule and a rule without a condition return
their error codes with no invocation; otherwise the first (at most) 32
action ids are snapshotted, the condition runs, and on a `true` verdict
the snapshotted ids are executed in order. -/
def rule_evaluate (s : RuleState) (id : Nat) (context : Option MonitorContext) :
    Int × List (Nat × MonitorContext) :=
  match context with
  | none => (PHYMUTI_ERROR_INVALID_PARAM, [])
  | some ctx =>
    if id = 0 then (PHYMUTI_ERROR_INVALID_PARAM, [])
    else
      match s.rules.find? (fun r => r.id == id) with
      | none => (PHYMUTI_ERROR_RULE_NOT_FOUND, [])
      | some rule =>
        if rule.enabled = false then (PHYMUTI_ERROR_RULE_DISABLED, [])
        else
          match rule.condition with
          | none => (PHYMUTI_ERROR_RULE_NO_CONDITION, [])
          | some cond =>
            let action_ids := rule.action_ids.take 32
            if cond ctx then
              (PHYMUTI_SUCCESS, action_ids.map (fun a => (a, ctx)))
            else (PHYMUTI_SUCCESS, [])

/-! ## Device registry data model (`src/device_manager.c`) -/

/-- Embedding of `struct device_type_struct` from `device_manager.c`.  `tid` models
the malloc identity of the node (the C code compares `device->type ==
type` by pointer); `create_result` models the class `create` hook: `none`
when the slot is NULL, `some c` for a hook that returns code `c` (hooks
are user code running outside the registry; the embedding keeps only
their result).  The remaining five hook slots play no role in the
claims under verification. -/
structure DeviceType where
  tid : Nat
  name : String
  create_result : Option Int
deriving DecidableEq, Repr

/-- Embedding of `struct device_struct` from `device_manager.c`: name, class
back-reference (by the class's `tid`) and the user-data slot taken from
`config->user_data` (`none` = NULL config). -/
structure Device where
  name : String
  type_tid : Nat
  user_data : Option Nat
deriving DecidableEq, Repr

/-- The device-manager globals `device_type_list` and `device_list`
(heads = newest), plus a counter handing out fresh `tid`s (the malloc
identities of type nodes). -/
structure DevState where
  types : List DeviceType
  devices : List Device
  next_tid : Nat
deriving DecidableEq, Repr

def device_manager_init : DevState := ⟨[], [], 1⟩

/-- Embedding of `device_type_register` from `device_manager.c` lines 149–209: fails
with `ALREADY_EXISTS` on a taken name, else prepends a fresh node. -/
def device_type_register (s : DevState) (type_name : Option String)
    (create_result : Option Int) : Int × DevState :=
  match type_name with
  | none => (PHYMUTI_ERROR_INVALID_PARAM, s)
  | some nm =>
    if (s.types.find? (fun t => t.name == nm)).isSome then
      (PHYMUTI_ERROR_ALREADY_EXISTS, s)
    else
      (PHYMUTI_SUCCESS,
        ⟨⟨s.next_tid, nm, create_result⟩ :: s.types, s.devices, s.next_tid + 1⟩)

/-- The walk of `device_type_unregister` (`device_manager.c` lines
229–268) over the type list: at the first node with the requested name,
return `BUSY` (list untouched) when some live device references that
node, else unlink it. -/
def unregisterWalk (type_name : String) (devices : List Device) :
    List DeviceType → Int × List DeviceType
  | [] => (PHYMUTI_ERROR_DEVICE_TYPE_NOT_FOUND, [])
  | t :: rest =>
    if t.name = type_name then
      if devices.any (fun d => d.type_tid == t.tid) then
        (PHYMUTI_ERROR_BUSY, t :: rest)
      else
        (PHYMUTI_SUCCESS, rest)
    else
      ((unregisterWalk type_name devices rest).1,
        t :: (unregisterWalk type_name devices rest).2)

/-- Embedding of `device_type_unregister` from `device_manager.c` lines 217–275. -/
def device_type_unregister (s : DevState) (type_name : Option String) :
    Int × DevState :=
  match type_name with
  | none => (PHYMUTI_ERROR_INVALID_PARAM, s)
  | some nm =>
    ((unregisterWalk nm s.devices s.types).1,
      ⟨(unregisterWalk nm s.devices s.types).2, s.devices, s.next_tid⟩)

/-- Embedding of `device_find_by_name` from `device_manager.c` lines 519–541 (the
first match of the directory walk). -/
def device_find_by_name (s : DevState) (name : Option String) : Option Device :=
  match name with
  | none => none
  | some nm => s.devices.find? (fun d => d.name == nm)

/-- Embedding of `device_create` from `device_manager.c` lines 350–435: unknown
class, name collision or a failing class `create` hook yield no handle
and leave the directory untouched (the partially built node is freed);
only after the hook has returned success is the instance prepended to
`device_list`. -/
def device_create (s : DevState) (type_name : Option String)
    (name : Option String) (config : Option Nat) : Option Device × DevState :=
  match type_name, name with
  | none, _ => (none, s)
  | _, none => (none, s)
  | some tn, some nm =>
    match s.types.find? (fun t => t.name == tn) with
    | none => (none, s)
    | some t =>
      if (s.devices.find? (fun d => d.name == nm)).isSome then (none, s)
      else
        match t.create_result with
        | some c =>
          if c ≠ PHYMUTI_SUCCESS then (none, s)
          else (some ⟨nm, t.tid, config⟩,
            ⟨s.types, ⟨nm, t.tid, config⟩ :: s.devices, s.next_tid⟩)
        | none => (some ⟨nm, t.tid, config⟩,
            ⟨s.types, ⟨nm, t.tid, config⟩ :: s.devices, s.next_tid⟩)

/-! ## Little-endian helper lemmas -/

theorem bytesLE_length (n v : Nat) : (bytesLE n v).length = n := by
  induction n generalizing v with
  | zero => rfl
  | succ n ih => simp [bytesLE, ih]

theorem fromLE_bytesLE (n v : Nat) : fromLE (bytesLE n v) = v % 2 ^ (8 * n) := by
  induction n generalizing v with
  | zero => simp [bytesLE, fromLE, Nat.mod_one]
  | succ n ih =>
    have hpow : 2 ^ (8 * (n + 1)) = 256 * 2 ^ (8 * n) := by
      rw [Nat.mul_succ, pow_add]
      ring
    rw [bytesLE, fromLE, ih, hpow, Nat.mod_mul]

theorem loadLE_storeLE (data : List Nat) (off n v : Nat)
    (h : off + n ≤ data.length) :
    loadLE (storeLE data off n v) off n = v % 2 ^ (8 * n) := by
  have hofl : (data.take off).length = off := List.length_take_of_le (by omega)
  rw [loadLE, storeLE, List.append_assoc, List.drop_left' hofl,
    List.take_left' (bytesLE_length n v), fromLE_bytesLE]

theorem storeLE_length (data : List Nat) (off n v : Nat)
    (h : off + n ≤ data.length) :
    (storeLE data off n v).length = data.length := by
  simp [storeLE, bytesLE_length, List.length_take, List.length_drop]
  omega

/-! ## C3 — misalignment is reported first -/

/-- C3: every typed multi-byte access (read or write of halfword, word
or doubleword) on a region whose address is not naturally aligned to
the access width fails with `PHYMUTI_ERROR_MEMORY_ALIGNMENT`, for every
region whatsoever — in particular regardless of whether the range and
permission checks would also have rejected the access, since those
checks are only reached on an aligned address. -/
theorem typed_access_alignment_precedes_checks (r : MemoryRegion)
    (addr v16 v32 v64 : Nat) :
    (addr % 2 ≠ 0 →
      memory_read_halfword r addr = (PHYMUTI_ERROR_MEMORY_ALIGNMENT, none, []) ∧
      memory_write_halfword r addr v16 = (PHYMUTI_ERROR_MEMORY_ALIGNMENT, r, [])) ∧
    (addr % 4 ≠ 0 →
      memory_read_word r addr = (PHYMUTI_ERROR_MEMORY_ALIGNMENT, none, []) ∧
      memory_write_word r addr v32 = (PHYMUTI_ERROR_MEMORY_ALIGNMENT, r, [])) ∧
    (addr % 8 ≠ 0 →
      memory_read_doubleword r addr = (PHYMUTI_ERROR_MEMORY_ALIGNMENT, none, []) ∧
      memory_write_doubleword r addr v64 = (PHYMUTI_ERROR_MEMORY_ALIGNMENT, r, [])) := by
  have h2 : addr &&& 1 = addr % 2 := Nat.and_one_is_mod addr
  have h4 : addr &&& 3 = addr % 4 := by
    have := Nat.and_pow_two_sub_one_eq_mod addr 2
    norm_num at this
    exact this
  have h8 : addr &&& 7 = addr % 8 := by
    have := Nat.and_pow_two_sub_one_eq_mod addr 3
    norm_num at this
    exact this
  refine ⟨fun h => ?_, fun h => ?_, fun h => ?_⟩
  · constructor
    · simp [memory_read_halfword, h2, h]
    · simp [memory_write_halfword, h2, h]
  · constructor
    · simp [memory_read_word, h4, h]
    · simp [memory_write_word, h4, h]
  · constructor
    · simp [memory_read_doubleword, h8, h]
    · simp [memory_write_doubleword, h8, h]

/-- A concrete 16-byte read-write region at `0x1000`, the fixture of the
spec's end-to-end scenario 1. -/
def sampleRegion : MemoryRegion :=
  ⟨"reg", 1, 0x1000, 16, MEMORY_FLAG_RW, List.replicate 16 0⟩

/-- Witness for C3 at `addr = 0x1001` inside `sampleRegion`: the region
is readable, writable and the window is in range, yet every typed
multi-byte access fails with the alignment error. -/
theorem typed_access_alignment_precedes_checks_witness :
    memory_read_halfword sampleRegion 0x1001 =
        (PHYMUTI_ERROR_MEMORY_ALIGNMENT, none, []) ∧
    memory_write_word sampleRegion 0x1001 5 =
        (PHYMUTI_ERROR_MEMORY_ALIGNMENT, sampleRegion, []) ∧
    memory_read_doubleword sampleRegion 0x1001 =
        (PHYMUTI_ERROR_MEMORY_ALIGNMENT, none, []) := by
  refine ⟨?_, ?_, ?_⟩
  · exact (typed_access_alignment_precedes_checks sampleRegion 0x1001 0 5 0).1
      (by decide) |>.1
  · exact (typed_access_alignment_precedes_checks sampleRegion 0x1001 0 5 0).2.1
      (by decide) |>.2
  · exact (typed_access_alignment_precedes_checks sampleRegion 0x1001 0 5 0).2.2
      (by decide) |>.1

/-! ## C4 — word write/read round trip -/

/-- C4: on a region with READ and WRITE permission whose backing has the
region's size, a word write at a 4-byte-aligned in-range address
succeeds, and reading the same address back succeeds and yields the
written value (through the little-endian byte backing). -/
theorem write_read_word_roundtrip (r : MemoryRegion) (addr x : Nat)
    (hlen : r.data.length = r.size)
    (hrd : r.flags &&& MEMORY_FLAG_READ ≠ 0)
    (hwr : r.flags &&& MEMORY_FLAG_WRITE ≠ 0)
    (hal : addr % 4 = 0)
    (hlo : r.base_addr ≤ addr)
    (hhi : addr + 4 ≤ r.base_addr + r.size)
    (hnw : r.base_addr + r.size < 2 ^ 64)
    (hx : x < 2 ^ 32) :
    ∃ r' : MemoryRegion,
      memory_write_word r addr x =
        (PHYMUTI_SUCCESS, r', [⟨addr, 4, x, .write⟩]) ∧
      memory_read_word r' addr =
        (PHYMUTI_SUCCESS, some x, [⟨addr, 4, x, .read⟩]) := by
  have h4 : addr &&& 3 = addr % 4 := by
    have := Nat.and_pow_two_sub_one_eq_mod addr 2
    norm_num at this
    exact this
  have hxmod : x % 2 ^ 32 = x := Nat.mod_eq_of_lt hx
  have haw : (addr + 4) % 2 ^ 64 = addr + 4 := Nat.mod_eq_of_lt (by omega)
  have hbw : (r.base_addr + r.size) % 2 ^ 64 = r.base_addr + r.size :=
    Nat.mod_eq_of_lt hnw
  have hchkw : check_memory_access r addr 4 .write = PHYMUTI_SUCCESS := by
    rw [check_memory_access, if_neg (by rw [haw, hbw]; omega), if_neg hwr]
  have hoff : (addr - r.base_addr) + 4 ≤ r.data.length := by omega
  refine ⟨{ r with data := storeLE r.data (addr - r.base_addr) 4 (x % 2 ^ 32) }, ?_, ?_⟩
  · rw [memory_write_word]
    simp only [hxmod, h4, hal]
    rw [if_neg (by simp), if_neg (by simp [hchkw])]
  · have hchkr : check_memory_access
        { r with data := storeLE r.data (addr - r.base_addr) 4 (x % 2 ^ 32) }
          addr 4 .read = PHYMUTI_SUCCESS := by
      rw [check_memory_access]
      rw [if_neg (by simp only; rw [haw, hbw]; omega), if_neg (by simpa using hrd)]
    have hload : loadLE (storeLE r.data (addr - r.base_addr) 4 (x % 2 ^ 32))
        (addr - r.base_addr) 4 = x := by
      rw [loadLE_storeLE _ _ _ _ hoff]
      omega
    simp only [memory_read_word]
    rw [if_neg (by rw [h4, hal]; simp)]
    rw [if_neg (by rw [hchkr]; simp)]
    rw [hload]

/-- Witness for C4: the spec's end-to-end scenario 1 — write
`0x41820000` at `0x1000` into `sampleRegion`, read it back. -/
theorem write_read_word_roundtrip_witness :
    (memory_write_word sampleRegion 0x1000 0x41820000).1 = PHYMUTI_SUCCESS ∧
    (memory_read_word (memory_write_word sampleRegion 0x1000 0x41820000).2.1
        0x1000).2.1 = some 0x41820000 := by
  obtain ⟨r', hw, hr⟩ :=
    write_read_word_roundtrip sampleRegion 0x1000 0x41820000
      (by decide) (by decide) (by decide) (by decide) (by decide) (by decide)
      (by decide) (by decide)
  rw [hw]
  exact ⟨rfl, by rw [hr]⟩

/-! ## C10 — degenerate buffer accesses are rejected up-front -/

/-- C10: `memory_read_buffer` and `memory_write_buffer` called with a
zero length or a NULL buffer pointer return
`PHYMUTI_ERROR_INVALID_PARAM`, deliver no data, leave the backing
untouched and broadcast no access notification. -/
theorem buffer_access_rejects_degenerate (r : MemoryRegion) (addr size : Nat)
    (bufR : Option Unit) (bufW : Option (List Nat)) :
    (bufR = none ∨ size = 0 →
      memory_read_buffer r addr bufR size = (PHYMUTI_ERROR_INVALID_PARAM, none, [])) ∧
    (bufW = none ∨ size = 0 →
      memory_write_buffer r addr bufW size = (PHYMUTI_ERROR_INVALID_PARAM, r, [])) := by
  constructor
  · intro h
    rw [memory_read_buffer, if_pos h]
  · intro h
    rcases bufW with _ | buf
    · rfl
    · rcases h with h | h
      · exact absurd h (by simp)
      · rw [memory_write_buffer]
        simp [h]

/-- Witness for C10 on `sampleRegion`: a zero-length read with a live
buffer and a NULL-buffer write of nonzero length are both rejected. -/
theorem buffer_access_rejects_degenerate_witness :
    memory_read_buffer sampleRegion 0x1000 (some ()) 0 =
        (PHYMUTI_ERROR_INVALID_PARAM, none, []) ∧
    memory_write_buffer sampleRegion 0x1000 none 4 =
        (PHYMUTI_ERROR_INVALID_PARAM, sampleRegion, []) :=
  ⟨(buffer_access_rejects_degenerate sampleRegion 0x1000 0 (some ()) none).1
      (Or.inr rfl),
    (buffer_access_rejects_degenerate sampleRegion 0x1000 4 (some ()) none).2
      (Or.inl rfl)⟩

/-! ## C2 — region creation does not enforce per-device name uniqueness -/

/-- Counterexample to C2 as stated: creating the region `"reg"` twice
for the same device `1` succeeds both times, after which the registry
holds two regions with the same owning device and the same name —
`memory_region_create` never consults the existing registry. -/
theorem memory_region_create_duplicate_cex :
    ((memory_region_create
        (memory_region_create memory_manager_init 1 (some "reg") 0x1000 16
            MEMORY_FLAG_RW).2
        1 (some "reg") 0x2000 16 MEMORY_FLAG_RW).1).isSome = true ∧
    (((memory_region_create
        (memory_region_create memory_manager_init 1 (some "reg") 0x1000 16
            MEMORY_FLAG_RW).2
        1 (some "reg") 0x2000 16 MEMORY_FLAG_RW).2).regions.filter
      (fun r => r.device == 1 && r.name == "reg")).length = 2 := by
  constructor
  · rfl
  · rfl

/-- C2 (amended): `memory_region_create` fails exactly when the name is
missing (NULL) or the size is zero; a name already owned by the same
device is not rejected, so region names are not kept unique within a
device.  (On success the fresh region carries a zero-initialized backing
of exactly `size` bytes.) -/
theorem memory_region_create_fails_iff (s : MemState) (device : Nat)
    (name : Option String) (base_addr size flags : Nat) :
    ((memory_region_create s device name base_addr size flags).1 = none ↔
      name = none ∨ size = 0) ∧
    (∀ r, (memory_region_create s device name base_addr size flags).1 = some r →
      r.data = List.replicate size 0 ∧
      (memory_region_create s device name base_addr size flags).2.regions =
        r :: s.regions) := by
  rcases name with _ | nm
  · exact ⟨by simp [memory_region_create], by simp [memory_region_create]⟩
  · by_cases hsz : size = 0
    · refine ⟨by simp [memory_region_create, hsz], ?_⟩
      intro r hr
      rw [memory_region_create] at hr
      simp [hsz] at hr
    · refine ⟨by simp [memory_region_create, hsz], ?_⟩
      intro r hr
      rw [memory_region_create] at hr
      simp only [hsz, if_false] at hr
      cases hr
      rw [memory_region_create]
      simp [hsz]

/-! ## C5 — disabled / condition-less rule evaluation -/

/-- A concrete access context used by the rule-engine and monitor
witnesses. -/
def sampleContext : MonitorContext := ⟨1, 0x1000, 4, 31, .write⟩

/-- A rule engine holding the single rule `"r1"` fresh from
`rule_create`: enabled (as the source initializes it) and without a
condition. -/
def ruleStateNoCond : RuleState := (rule_create rule_engine_init (some "r1")).2

/-- The state `ruleStateNoCond` after `rule_disable(1)`. -/
def ruleStateDisabled : RuleState := (rule_disable ruleStateNoCond 1).2

/-- Counterexample to C5 as stated: evaluating rule 1 — an existing rule
— with a non-null context returns a non-success code both when the rule
is disabled and when it merely lacks a condition; in neither case is the
claimed "returns success" true (no action is executed, though). -/
theorem rule_evaluate_noop_not_success_cex :
    (rule_evaluate ruleStateDisabled 1 (some sampleContext)).1 =
        PHYMUTI_ERROR_RULE_DISABLED ∧
    (rule_evaluate ruleStateNoCond 1 (some sampleContext)).1 =
        PHYMUTI_ERROR_RULE_NO_CONDITION ∧
    PHYMUTI_ERROR_RULE_DISABLED ≠ PHYMUTI_SUCCESS ∧
    PHYMUTI_ERROR_RULE_NO_CONDITION ≠ PHYMUTI_SUCCESS :=
  ⟨rfl, rfl, by decide, by decide⟩

/-- C5 (amended): `rule_evaluate` on an existing rule with a non-null
context executes no action when the rule is disabled or has no
condition, but instead of success it returns the dedicated error codes
`PHYMUTI_ERROR_RULE_DISABLED` (checked first) respectively
`PHYMUTI_ERROR_RULE_NO_CONDITION`. -/
theorem rule_evaluate_disabled_or_no_condition (s : RuleState) (id : Nat)
    (ctx : MonitorContext) (rule : Rule) (hid : id ≠ 0)
    (hfind : s.rules.find? (fun r => r.id == id) = some rule) :
    (rule.enabled = false →
      rule_evaluate s id (some ctx) = (PHYMUTI_ERROR_RULE_DISABLED, [])) ∧
    (rule.enabled = true → rule.condition = none →
      rule_evaluate s id (some ctx) = (PHYMUTI_ERROR_RULE_NO_CONDITION, [])) := by
  constructor
  · intro hdis
    rw [rule_evaluate]
    simp [hid, hfind, hdis]
  · intro hen hcond
    rw [rule_evaluate]
    simp [hid, hfind, hen, hcond]

/-- Witness for C5 (amended) on the concrete one-rule engines: the
theorem applied at rule id 1 yields the two error outcomes with empty
invocation lists. -/
theorem rule_evaluate_disabled_or_no_condition_witness :
    rule_evaluate ruleStateDisabled 1 (some sampleContext) =
        (PHYMUTI_ERROR_RULE_DISABLED, []) ∧
    rule_evaluate ruleStateNoCond 1 (some sampleContext) =
        (PHYMUTI_ERROR_RULE_NO_CONDITION, []) :=
  ⟨(rule_evaluate_disabled_or_no_condition ruleStateDisabled 1 sampleContext
      ⟨1, "r1", none, [], false⟩ (by decide) rfl).1 rfl,
    (rule_evaluate_disabled_or_no_condition ruleStateNoCond 1 sampleContext
      ⟨1, "r1", none, [], true⟩ (by decide) rfl).2 rfl rfl⟩

/-! ## C6 — rule creation does not enforce name uniqueness -/

/-- Counterexample to C6 as stated: after creating the rule `"a"`,
creating `"a"` again succeeds with the fresh id 2, and the engine then
holds two live rules named `"a"`. -/
theorem rule_create_duplicate_cex :
    (rule_create (rule_create rule_engine_init (some "a")).2 (some "a")).1 = 2 ∧
    ((rule_create (rule_create rule_engine_init (some "a")).2
        (some "a")).2.rules.filter (fun r => r.name == "a")).length = 2 :=
  ⟨rfl, rfl⟩

/-- C6 (amended): as long as the id counter has not wrapped to 0,
`rule_create` fails (returns the invalid id 0) exactly when the name is
missing (NULL) or empty; a name already carried by a live rule is not
rejected, so rule names are not kept unique. -/
theorem rule_create_fails_iff (s : RuleState) (name : Option String)
    (hnz : s.next_rule_id ≠ 0) :
    (rule_create s name).1 = 0 ↔ name = none ∨ name = some "" := by
  rcases name with _ | nm
  · simp [rule_create]
  · by_cases hnm : nm = ""
    · simp [rule_create, hnm]
    · simp [rule_create, hnm, hnz]

/-- Witness for C6 (amended) at the freshly initialized engine: the
empty name is rejected. -/
theorem rule_create_fails_iff_witness :
    (rule_create rule_engine_init (some "")).1 = 0 :=
  (rule_create_fails_iff rule_engine_init (some "") (by decide)).mpr (Or.inr rfl)


/-! ## C9 — watchpoints are born enabled -/

/-- C9: whenever `monitor_add_watchpoint` succeeds (valid region handle,
size in `1..8`, id counter not wrapped to 0), the returned id is valid
and the newly created watchpoint is already enabled. -/
theorem monitor_add_watchpoint_starts_enabled (s : MonitorState)
    (region addr size : Nat) (type : WatchpointType) (wpvalue : Nat)
    (hreg : region ≠ 0) (h1 : 1 ≤ size) (h8 : size ≤ 8)
    (hid : s.next_watchpoint_id ≠ 0) :
    (monitor_add_watchpoint s region addr size type wpvalue).1 ≠ 0 ∧
    ∃ wp ∈ (monitor_add_watchpoint s region addr size type wpvalue).2.watchpoints,
      wp.id = (monitor_add_watchpoint s region addr size type wpvalue).1 ∧
      wp.enabled = true := by
  have hcond : ¬(region = 0 ∨ size = 0 ∨ size > 8) := by omega
  rw [monitor_add_watchpoint, if_neg hcond]
  exact ⟨hid, ⟨s.next_watchpoint_id, region, addr, size, type, true, wpvalue, []⟩,
    List.mem_cons_self _ _, rfl, rfl⟩

/-- Witness for C9: the first watchpoint added to a fresh monitor (the
spec's scenario-2 fixture: WRITE watchpoint at `0x1000`, size 4) gets
id 1 and is enabled. -/
theorem monitor_add_watchpoint_starts_enabled_witness :
    (monitor_add_watchpoint monitor_init 1 0x1000 4 .wpWrite 0).1 ≠ 0 ∧
    ∃ wp ∈ (monitor_add_watchpoint monitor_init 1 0x1000 4 .wpWrite 0).2.watchpoints,
      wp.id = (monitor_add_watchpoint monitor_init 1 0x1000 4 .wpWrite 0).1 ∧
      wp.enabled = true :=
  monitor_add_watchpoint_starts_enabled monitor_init 1 0x1000 4 .wpWrite 0
    (by decide) (by decide) (by decide) (by decide)

/-! ## C1 — watchpoint dispatch -/

/-- The claim's matching predicate, written from the spec's words: an
enabled watchpoint on the accessed region whose half-open window
`[wp.addr, wp.addr + wp.size)` overlaps `[addr, addr + size)` and whose
kind matches the access (`READ` matches reads, `WRITE` matches writes,
`ACCESS` matches reads or writes, `VALUE_WRITE` matches writes carrying
the watchpoint's target value). -/
def claimMatches (region addr size value : Nat) (access : MemoryAccessType)
    (wp : Watchpoint) : Bool :=
  wp.enabled && wp.region == region &&
    (decide (addr < wp.addr + wp.size) && decide (wp.addr < addr + size)) &&
    (match wp.type with
      | .wpRead => access == .read
      | .wpWrite => access == .write
      | .wpAccess => access == .read || access == .write
      | .wpValueWrite => access == .write && value == wp.wpvalue)

/-- The invocation sequence demanded by the claim: for each matching
watchpoint, in walk order, all of its bound actions paired with the one
access context of the call. -/
def claimInvocations (wps : List Watchpoint) (region addr size value : Nat)
    (access : MemoryAccessType) : List (Nat × MonitorContext) :=
  (wps.filter (claimMatches region addr size value access)).flatMap
    (fun wp => wp.action_ids.map
      (fun a => (a, (⟨region, addr, size, value, access⟩ : MonitorContext))))

theorem claimMatches_decomp (region addr size value : Nat)
    (access : MemoryAccessType) (wp : Watchpoint) :
    claimMatches region addr size value access wp =
      (wp.enabled && wp.region == region &&
        (decide (addr < wp.addr + wp.size) && decide (wp.addr < addr + size)) &&
        kind_match_code wp value access) := rfl

theorem claimInvocations_cons_neg {region addr size value : Nat}
    {access : MemoryAccessType} {wp : Watchpoint} (rest : List Watchpoint)
    (hm : claimMatches region addr size value access wp = false) :
    claimInvocations (wp :: rest) region addr size value access =
      claimInvocations rest region addr size value access := by
  rw [claimInvocations, claimInvocations, List.filter_cons]
  simp [hm]

theorem claimInvocations_cons_pos {region addr size value : Nat}
    {access : MemoryAccessType} {wp : Watchpoint} (rest : List Watchpoint)
    (hm : claimMatches region addr size value access wp = true) :
    claimInvocations (wp :: rest) region addr size value access =
      wp.action_ids.map
        (fun a => (a, (⟨region, addr, size, value, access⟩ : MonitorContext))) ++
      claimInvocations rest region addr size value access := by
  rw [claimInvocations, claimInvocations, List.filter_cons]
  simp only [hm, if_true]
  rw [List.flatMap_cons]

/-- The walk of `monitor_notify_memory_access` produces exactly the
claim's invocation sequence appended to the incoming buffer, provided
the `uint64_t` sums do not wrap and the match buffer never fills up. -/
theorem notifyWalk_eq_claim (region addr size value : Nat)
    (access : MemoryAccessType) (hsz : addr + size < 2 ^ 64)
    (wps : List Watchpoint) :
    ∀ acc : List (Nat × MonitorContext),
    (∀ wp ∈ wps, wp.addr + wp.size < 2 ^ 64) →
    acc.length + (claimInvocations wps region addr size value access).length ≤
      MAX_MATCHES →
    notifyWalk region addr size value access wps acc =
      acc ++ claimInvocations wps region addr size value access := by
  induction wps with
  | nil =>
    intro acc _ _
    simp [notifyWalk, claimInvocations]
  | cons wp rest ih =>
    intro acc hnw hlen
    have hwp : wp.addr + wp.size < 2 ^ 64 := hnw wp (by simp)
    have hrest : ∀ w ∈ rest, w.addr + w.size < 2 ^ 64 := fun w hw =>
      hnw w (List.mem_cons_of_mem _ hw)
    rw [notifyWalk]
    by_cases hen : wp.enabled = false
    · have hm : claimMatches region addr size value access wp = false := by
        simp [claimMatches_decomp, hen]
      rw [claimInvocations_cons_neg rest hm] at hlen ⊢
      rw [if_pos hen]
      exact ih acc hrest hlen
    · have hen' : wp.enabled = true := by
        revert hen
        cases wp.enabled <;> simp
      rw [if_neg hen]
      by_cases hregeq : wp.region = region
      · rw [if_neg (by simp [hregeq])]
        have hmod : (addr + size) % 2 ^ 64 = addr + size := Nat.mod_eq_of_lt hsz
        have hmod' : (wp.addr + wp.size) % 2 ^ 64 = wp.addr + wp.size :=
          Nat.mod_eq_of_lt hwp
        by_cases hov : addr < wp.addr + wp.size ∧ wp.addr < addr + size
        · rw [if_neg (by rw [hmod, hmod']; omega)]
          by_cases hk : kind_match_code wp value access = false
          · have hm : claimMatches region addr size value access wp = false := by
              rw [claimMatches_decomp, hk, Bool.and_false]
            rw [claimInvocations_cons_neg rest hm] at hlen ⊢
            rw [if_pos hk]
            exact ih acc hrest hlen
          · have hk' : kind_match_code wp value access = true := by
              revert hk
              cases kind_match_code wp value access <;> simp
            have hm : claimMatches region addr size value access wp = true := by
              rw [claimMatches_decomp, hk', hen']
              simp [hregeq, hov.1, hov.2]
            rw [claimInvocations_cons_pos rest hm] at hlen ⊢
            rw [if_neg hk]
            rw [List.length_append, List.length_map] at hlen
            have hids : wp.action_ids.length ≤ MAX_MATCHES - acc.length := by
              simp only [MAX_MATCHES] at hlen ⊢
              omega
            rw [List.take_of_length_le hids]
            rw [ih (acc ++ wp.action_ids.map
                (fun a => (a, (⟨region, addr, size, value, access⟩ : MonitorContext))))
              hrest (by rw [List.length_append, List.length_map]; omega)]
            rw [List.append_assoc]
        · have hm : claimMatches region addr size value access wp = false := by
            rw [claimMatches_decomp]
            rcases not_and_or.mp hov with h | h
            · simp [decide_eq_false h]
            · simp [decide_eq_false h]
          rw [claimInvocations_cons_neg rest hm] at hlen ⊢
          rw [if_pos (by rw [hmod, hmod']; omega)]
          exact ih acc hrest hlen
      · have hm : claimMatches region addr size value access wp = false := by
          simp [claimMatches_decomp, hregeq]
        rw [claimInvocations_cons_neg rest hm] at hlen ⊢
        rw [if_pos hregeq]
        exact ih acc hrest hlen

/-- C1 (amended): as long as the matched bound actions fit into the
32-entry match buffer, a returning `monitor_notify_memory_access` call
performs — strictly after the full walk over the watchpoint list, as
the snapshot-then-invoke structure of the embedding records — exactly
one invocation per bound action of each enabled, region-matching,
window-overlapping, kind-matching watchpoint, in walk order, every
invocation carrying the same access context, and invokes no other
watchpoint's actions; when the matches exceed 32 entries only the first
32 `(action, context)` pairs in walk order are invoked. -/
theorem monitor_notify_dispatches_matched (s : MonitorState)
    (region addr size value : Nat) (access : MemoryAccessType)
    (hreg : region ≠ 0) (hsz : addr + size < 2 ^ 64)
    (hwps : ∀ wp ∈ s.watchpoints, wp.addr + wp.size < 2 ^ 64)
    (hcap : (claimInvocations s.watchpoints region addr size value access).length ≤
      MAX_MATCHES) :
    monitor_notify_memory_access s region addr size value access =
      (PHYMUTI_SUCCESS, claimInvocations s.watchpoints region addr size value access) := by
  rw [monitor_notify_memory_access, if_neg hreg]
  rw [notifyWalk_eq_claim region addr size value access hsz s.watchpoints [] hwps
    (by simpa using hcap)]
  rw [List.nil_append]

/-- A monitor built through the public API: watchpoint 1 (WRITE,
`[0x1000, 0x1004)` on region 1) bound to action 5, and watchpoint 2
(WRITE, same window but on region 2) bound to action 6. -/
def witnessMonitorState : MonitorState :=
  (monitor_bind_action
    (monitor_add_watchpoint
      (monitor_bind_action
        (monitor_add_watchpoint monitor_init 1 0x1000 4 .wpWrite 0).2 1 5).2
      2 0x1000 4 .wpWrite 0).2 2 6).2

/-- Witness for C1 (amended): a word write on region 1 at `0x1000`
invokes exactly action 5 once, with the access context of the call —
watchpoint 2 sits on another region and its action 6 stays silent. -/
theorem monitor_notify_dispatches_matched_witness :
    monitor_notify_memory_access witnessMonitorState 1 0x1000 4 7 .write =
      (PHYMUTI_SUCCESS,
        [(5, (⟨1, 0x1000, 4, 7, .write⟩ : MonitorContext))]) := by
  rw [monitor_notify_dispatches_matched witnessMonitorState 1 0x1000 4 7 .write
    (by decide) (by decide) (by decide) (by decide)]
  rfl

/-- A monitor built through the public API: one enabled WRITE watchpoint
on region 1 with the 33 actions `1..33` bound in order. -/
def cexMonitorState : MonitorState :=
  (List.range 33).foldl (fun s a => (monitor_bind_action s 1 (a + 1)).2)
    (monitor_add_watchpoint monitor_init 1 0x1000 4 .wpWrite 0).2

/-- Counterexample to C1 as stated: on a matching write, the single
matched watchpoint has 33 bound actions, but the fixed 32-entry
`matched_actions` buffer silently drops the 33rd — only 32 invocations
happen and the bound action 33 is never invoked, so not *all* bound
actions of the matched watchpoint run. -/
theorem monitor_notify_truncation_cex :
    (monitor_notify_memory_access cexMonitorState 1 0x1000 4 7 .write).2.length = 32 ∧
    (claimInvocations cexMonitorState.watchpoints 1 0x1000 4 7 .write).length = 33 ∧
    ((monitor_notify_memory_access cexMonitorState 1 0x1000 4 7 .write).2.map
      Prod.fst).count 33 = 0 ∧
    (cexMonitorState.watchpoints.any fun wp =>
      wp.enabled && wp.region == 1 && decide (33 ∈ wp.action_ids)) = true :=
  ⟨rfl, rfl, rfl, rfl⟩

/-! ## C7 — class unregistration: busy and not-found -/

theorem unregisterWalk_busy (tn : String) (devices : List Device) :
    ∀ (types : List DeviceType) (t : DeviceType),
    types.find? (fun ty => ty.name == tn) = some t →
    devices.any (fun d => d.type_tid == t.tid) = true →
    unregisterWalk tn devices types = (PHYMUTI_ERROR_BUSY, types) := by
  intro types
  induction types with
  | nil => intro t ht; simp at ht
  | cons ty rest ih =>
    intro t ht hbusy
    cases hb : ty.name == tn with
    | true =>
      have hnm : ty.name = tn := by simpa using hb
      simp only [List.find?_cons, hb, Option.some.injEq] at ht
      cases ht
      rw [unregisterWalk, if_pos hnm, if_pos hbusy]
    | false =>
      have hnm : ¬ty.name = tn := by simpa using hb
      simp only [List.find?_cons, hb] at ht
      rw [unregisterWalk, if_neg hnm, ih t ht hbusy]

theorem unregisterWalk_missing (tn : String) (devices : List Device) :
    ∀ types : List DeviceType,
    types.find? (fun ty => ty.name == tn) = none →
    unregisterWalk tn devices types = (PHYMUTI_ERROR_DEVICE_TYPE_NOT_FOUND, types) := by
  intro types
  induction types with
  | nil => intro _; rfl
  | cons ty rest ih =>
    intro ht
    cases hb : ty.name == tn with
    | true =>
      simp only [List.find?_cons, hb] at ht
      exact absurd ht (by simp)
    | false =>
      have hnm : ¬ty.name = tn := by simpa using hb
      simp only [List.find?_cons, hb] at ht
      rw [unregisterWalk, if_neg hnm, ih ht]

/-- C7: `device_type_unregister` on a registered class name fails with
`PHYMUTI_ERROR_BUSY` and leaves the whole registry untouched when a
live device instance of that class exists, and fails with
`PHYMUTI_ERROR_DEVICE_TYPE_NOT_FOUND` (again leaving the state
untouched) when no class of that name is registered. -/
theorem device_type_unregister_busy_or_not_found (s : DevState) (tn : String) :
    (∀ t, s.types.find? (fun ty => ty.name == tn) = some t →
      s.devices.any (fun d => d.type_tid == t.tid) = true →
      device_type_unregister s (some tn) = (PHYMUTI_ERROR_BUSY, s)) ∧
    (s.types.find? (fun ty => ty.name == tn) = none →
      device_type_unregister s (some tn) =
        (PHYMUTI_ERROR_DEVICE_TYPE_NOT_FOUND, s)) := by
  constructor
  · intro t ht hbusy
    rw [device_type_unregister, unregisterWalk_busy tn s.devices s.types t ht hbusy]
  · intro ht
    rw [device_type_unregister, unregisterWalk_missing tn s.devices s.types ht]

/-- A device registry built through the public API: class `"tmp"`
(without lifecycle hooks) carrying the live instance `"room"`. -/
def witnessDevState : DevState :=
  (device_create
    (device_type_register device_manager_init (some "tmp") none).2
    (some "tmp") (some "room") none).2

/-- Witness for C7: unregistering `"tmp"` while `"room"` lives returns
`BUSY` with the state intact, and unregistering the never-registered
`"gpio"` returns `DEVICE_TYPE_NOT_FOUND`. -/
theorem device_type_unregister_busy_or_not_found_witness :
    device_type_unregister witnessDevState (some "tmp") =
        (PHYMUTI_ERROR_BUSY, witnessDevState) ∧
    device_type_unregister witnessDevState (some "gpio") =
        (PHYMUTI_ERROR_DEVICE_TYPE_NOT_FOUND, witnessDevState) :=
  ⟨(device_type_unregister_busy_or_not_found witnessDevState "tmp").1
      ⟨1, "tmp", none⟩ rfl rfl,
    (device_type_unregister_busy_or_not_found witnessDevState "gpio").2 rfl⟩

/-! ## C8 — instance creation is atomic w.r.t. the directory -/

/-- C8: `device_create` touches the instance directory only on full
success: whenever it returns no handle the whole state is unchanged
(the embedding records the release of the partially built instance by
simply not retaining it), and whenever it returns a handle the class's
`create` hook, if present, returned success, the instance name was
previously free, the instance was prepended to the directory only after
the hook's verdict, and it is now findable by `device_find_by_name`. -/
theorem device_create_directory_atomic (s : DevState) (tn nm : String)
    (config : Option Nat) :
    ((device_create s (some tn) (some nm) config).1 = none →
      (device_create s (some tn) (some nm) config).2 = s) ∧
    (∀ d, (device_create s (some tn) (some nm) config).1 = some d →
      ∃ t, s.types.find? (fun ty => ty.name == tn) = some t ∧
        (∀ c, t.create_result = some c → c = PHYMUTI_SUCCESS) ∧
        d = ⟨nm, t.tid, config⟩ ∧
        device_find_by_name s (some nm) = none ∧
        (device_create s (some tn) (some nm) config).2 =
          ⟨s.types, d :: s.devices, s.next_tid⟩ ∧
        device_find_by_name ((device_create s (some tn) (some nm) config).2)
          (some nm) = some d) := by
  cases htf : s.types.find? (fun ty => ty.name == tn) with
  | none =>
    constructor
    · intro _
      simp [device_create, htf]
    · intro d hd
      rw [device_create] at hd
      simp [htf] at hd
  | some t =>
    by_cases hdup : (s.devices.find? (fun d => d.name == nm)).isSome
    · constructor
      · intro _
        simp [device_create, htf, hdup]
      · intro d hd
        rw [device_create] at hd
        simp [htf, hdup] at hd
    · have hfree : device_find_by_name s (some nm) = none := by
        rw [device_find_by_name]
        exact Option.not_isSome_iff_eq_none.mp hdup
      cases hcr : t.create_result with
      | none =>
        constructor
        · intro h
          rw [device_create] at h
          simp [htf, hdup, hcr] at h
        · intro d hd
          rw [device_create] at hd
          simp only [htf, hdup, hcr, Bool.false_eq_true, if_false,
            Option.some.injEq] at hd
          refine ⟨t, rfl, by simp [hcr], hd.symm, hfree, ?_, ?_⟩
          · rw [device_create]
            simp [htf, hdup, hcr, hd]
          · rw [device_create]
            simp [htf, hdup, hcr, ← hd, device_find_by_name]
      | some c =>
        by_cases hc : c ≠ PHYMUTI_SUCCESS
        · constructor
          · intro _
            simp [device_create, htf, hdup, hcr, hc]
          · intro d hd
            rw [device_create] at hd
            simp [htf, hdup, hcr, hc] at hd
        · constructor
          · intro h
            rw [device_create] at h
            simp [htf, hdup, hcr, hc] at h
          · intro d hd
            rw [device_create] at hd
            simp only [htf, hdup, hcr, hc, Bool.false_eq_true, if_false,
              Option.some.injEq] at hd
            refine ⟨t, rfl, ?_, hd.symm, hfree, ?_, ?_⟩
            · intro c' hc'
              rw [hcr] at hc'
              cases hc'
              exact not_not.mp hc
            · rw [device_create]
              simp [htf, hdup, hcr, hc, hd]
            · rw [device_create]
              simp [htf, hdup, hcr, hc, ← hd, device_find_by_name]

/-- Witness for C8: creating `"room"` of class `"tmp"` (no hooks) makes
the instance findable, and a second creation under the same name fails
leaving the state unchanged. -/
theorem device_create_directory_atomic_witness :
    device_find_by_name witnessDevState (some "room") =
        some ⟨"room", 1, none⟩ ∧
    (device_create witnessDevState (some "tmp") (some "room") none).2 =
        witnessDevState := by
  constructor
  · obtain ⟨t, ht, -, hd, -, -, hfind⟩ :=
      (device_create_directory_atomic
        (device_type_register device_manager_init (some "tmp") none).2
        "tmp" "room" none).2 ⟨"room", 1, none⟩ rfl
    exact hfind
  · exact (device_create_directory_atomic witnessDevState "tmp" "room" none).1 rfl

/-- Witness for C2 (amended): a zero-size create is rejected at the
fresh registry. -/
theorem memory_region_create_fails_iff_witness :
    (memory_region_create memory_manager_init 1 (some "reg") 0x1000 0
      MEMORY_FLAG_RW).1 = none :=
  (memory_region_create_fails_iff memory_manager_init 1 (some "reg") 0x1000 0
    MEMORY_FLAG_RW).1.mpr (Or.inr rfl)
